import Mathlib

/-!
Verification of the loopa event-loop framework (Muterra/py_loopa).

This file gives a shallow embedding of the lifecycle logic in
`loopa/core.py` (classes `LoopManager`, `LoopaTroopa`, `Aengel`) and of
`loopa/utils.py` (`default_to`), and proves or refutes the frozen claims
about it.

Modelling conventions:
* Python exceptions are values of `Exc`; fallible code returns
  `Except Exc _`.
* `threading.Event` / `asyncio.Event` objects are modelled as `Bool`
  (their `is_set` value); an attribute that may hold `None` instead of an
  event is `Option Bool`.
* `try/finally` is translated by sequencing the finally-block state
  updates unconditionally after the body, and threading the body's
  `Except` result through.
* The asynchronous root routine run by an activation is abstracted by its
  outcome (`Except Exc Unit`): normal completion, a stop-request-induced
  completion, and an unhandled exception are all instances of it.
-/

/-- Python exception values that appear in `loopa/core.py`. -/
inductive Exc where
  | runtimeError (msg : String)
  | valueError (msg : String)
  | attributeError
  | nameError (missing : String)
  | cancelledError
  | userExc (code : Nat)
deriving DecidableEq, Repr

/-! ## loopa/utils.py: default_to -/

/-- Embedding of `loopa.utils.default_to(check, default, comparator=None)`.
Python `None` is `Option.none`; an omitted `comparator` and an explicit
`comparator=None` are indistinguishable in the source (`if comparator is
None`), so the comparator argument is a single `Option α`. -/
def default_to {α : Type} [DecidableEq α] (check default : Option α)
    (comparator : Option α) : Option α :=
  match comparator with
  | none =>
    -- if check is None: return default  / else: return check
    match check with
    | none => default
    | some _ => check
  | some c =>
    -- if check == comparator: return default / else: return check
    if check = some c then default else check

/-! ## loopa/core.py: Aengel guardling registry

The `Aengel` keeps `self._guardlings`, a `collections.deque` of weak
proxies. A proxy compares equal to its referent, so the registry is
modelled at the referent level as a `List Nat` of guardling identities. -/

/-- Embedding of `Aengel.append_guardling`: wraps in a weak proxy and
appends to the right end of the deque. -/
def append_guardling (gs : List Nat) (g : Nat) : List Nat :=
  gs ++ [g]

/-- Embedding of `Aengel.prepend_guardling`: wraps in a weak proxy and
appends to the left end of the deque. -/
def prepend_guardling (gs : List Nat) (g : Nat) : List Nat :=
  g :: gs

/-- Embedding of `Aengel.remove_guardling`: `deque.remove` drops the first
element comparing equal to the argument, and raises `ValueError` when no
element matches (the source logs and re-raises the same `ValueError`). -/
def remove_guardling (gs : List Nat) (g : Nat) : Except Exc (List Nat) :=
  match gs with
  | [] => Except.error (Exc.valueError "deque.remove(x): x not in deque")
  | x :: rest =>
    if x = g then
      Except.ok rest
    else
      match remove_guardling rest g with
      | Except.ok rest' => Except.ok (x :: rest')
      | Except.error e => Except.error e

/-! ## loopa/core.py: LoopManager activation (`_run`, `finalize`)

`LoopManager._run(args, kwargs)` (core.py 182-217) is two nested
`try/finally` blocks around `run_until_complete(self._looper_future)`.
The scheduled task's outcome (normal return, return after a stop request,
or an unhandled exception) is the `outcome` parameter.  The state records
the two threading events, the number of `.set()` calls performed on the
shutdown-complete flag during the call (to express "signaled exactly
once"), and whether the event loop is closed. -/

/-- Observable state of a `LoopManager` around one `_run` activation. -/
structure LMRunState where
  startup_complete : Bool
  shutdown_complete : Bool
  shutdownSetCount : Nat
  loopClosed : Bool
  reusable_loop : Bool
deriving DecidableEq, Repr

/-- Embedding of `LoopManager.finalize`: `self._loop.close()`. -/
def LoopManager_finalize (s : LMRunState) : LMRunState :=
  { s with loopClosed := true }

/-- Embedding of `LoopManager._run` (core.py 182-217).  The body
`run_until_complete(...)` ends with `outcome`; both `finally` blocks run
unconditionally afterwards and the outcome is re-raised (or returned) at
the end. -/
def LoopManager_run (s : LMRunState) (outcome : Except Exc Unit) :
    Except Exc Unit × LMRunState :=
  -- self._loop.set_debug(self._debug); self._shutdown_complete_flag.clear()
  let s1 : LMRunState := { s with shutdown_complete := false }
  -- try/try: (set_event_loop when threaded); ensure_future(_execute_task);
  -- run_until_complete(...)  -- ends with `outcome`
  -- inner finally: self._thread = None; if not reusable_loop: finalize()
  let s2 : LMRunState :=
    if s1.reusable_loop then s1 else LoopManager_finalize s1
  -- outer finally: startup_complete.clear(); shutdown_complete.set()
  let s3 : LMRunState :=
    { s2 with
        startup_complete := false
        shutdown_complete := true
        shutdownSetCount := s2.shutdownSetCount + 1 }
  (outcome, s3)

/-! ## loopa/core.py: LoopaTroopa activation (`start`)

`LoopaTroopa.start` (core.py 368-389) overrides `LoopManager.start`
entirely: one `try/finally` whose finally block is `self._loop.close()`
followed by `self._shutdown_complete_flag.set()`.  Note it closes the
loop unconditionally (it never consults `reusable_loop`) and never calls
`_run`.  Updates that the running looper itself makes to
`_shutdown_init_flag` are abstracted into `outcome`, like the routine. -/

/-- Observable state of a `LoopaTroopa` around one `start` activation. -/
structure LTRunState where
  startup_complete : Bool
  shutdown_complete : Bool
  shutdownSetCount : Nat
  shutdown_init : Option Bool
  loopClosed : Bool
  reusable_loop : Bool
deriving DecidableEq, Repr

/-- Embedding of `LoopaTroopa.start` (core.py 368-389). -/
def LoopaTroopa_start (s : LTRunState) (outcome : Except Exc Unit) :
    Except Exc Unit × LTRunState :=
  -- try: set_debug; (set_event_loop when threaded);
  -- self._shutdown_init_flag = asyncio.Event()
  let s1 : LTRunState := { s with shutdown_init := some false }
  -- ensure_future(_execute_looper); run_until_complete(...) ends in `outcome`
  -- finally: self._loop.close(); self._shutdown_complete_flag.set()
  let s2 : LTRunState :=
    { s1 with
        loopClosed := true
        shutdown_complete := true
        shutdownSetCount := s1.shutdownSetCount + 1 }
  (outcome, s2)

/-! ## loopa/core.py: stop operations

`LoopManager.stop` (core.py 219-230) checks the startup-complete flag and
raises `RuntimeError` before it; otherwise it calls
`self._term_flag.set()` (an `AttributeError` if the term flag is the
`None` placeholder).  `LoopaTroopa.stop` (core.py 391-394) overrides it
with an unconditional `self._shutdown_init_flag.set()` — no ordering
check at all. -/

/-- State read and written by `LoopManager.stop`. -/
structure LMStopState where
  startup_complete : Bool
  term_flag : Option Bool
deriving DecidableEq, Repr

/-- Embedding of `LoopManager.stop` (core.py 219-230). -/
def LoopManager_stop (s : LMStopState) : Except Exc Unit × LMStopState :=
  if s.startup_complete = false then
    (Except.error (Exc.runtimeError "Cannot stop before startup is complete."),
      s)
  else
    match s.term_flag with
    | none => (Except.error Exc.attributeError, s)
    | some _ => (Except.ok (), { s with term_flag := some true })

/-- State read and written by `LoopaTroopa.stop`. -/
structure LTStopState where
  startup_complete : Bool
  shutdown_init : Option Bool
deriving DecidableEq, Repr

/-- Embedding of `LoopaTroopa.stop` (core.py 391-394): sets
`_shutdown_init_flag` unconditionally, with no startup-complete check. -/
def LoopaTroopa_stop (s : LTStopState) : Except Exc Unit × LTStopState :=
  match s.shutdown_init with
  | none => (Except.error Exc.attributeError, s)
  | some _ => (Except.ok (), { s with shutdown_init := some true })

/-! ## loopa/core.py: thread-safe stop operations

`LoopManager.stop_threadsafe_nowait` (core.py 232-239) checks the
startup-complete flag, then hands `self._term_flag.set` to
`self._loop.call_soon_threadsafe`, which raises `RuntimeError` when the
event loop is already closed (asyncio semantics); the scheduled setter is
modelled as taking effect on the flag.  `LoopaTroopa.stop_threadsafe_nowait`
(core.py 402-406) instead guards on `self._loop.is_closed()` and does
nothing at all when the loop is closed. -/

/-- State read and written by `LoopManager.stop_threadsafe_nowait`. -/
structure LMTsState where
  startup_complete : Bool
  loopClosed : Bool
  term_flag : Option Bool
deriving DecidableEq, Repr

/-- Embedding of `LoopManager.stop_threadsafe_nowait` (core.py 232-239). -/
def LoopManager_stop_threadsafe_nowait (s : LMTsState) :
    Except Exc Unit × LMTsState :=
  if s.startup_complete = false then
    (Except.error (Exc.runtimeError "Cannot stop before startup is complete."),
      s)
  else
    -- self._loop.call_soon_threadsafe(self._term_flag.set)
    match s.term_flag with
    | none => (Except.error Exc.attributeError, s)
    | some _ =>
      if s.loopClosed then
        (Except.error (Exc.runtimeError "Event loop is closed"), s)
      else
        (Except.ok (), { s with term_flag := some true })

/-- State read and written by `LoopaTroopa.stop_threadsafe_nowait`. -/
structure LTTsState where
  loopClosed : Bool
  shutdown_init : Option Bool
deriving DecidableEq, Repr

/-- Embedding of `LoopaTroopa.stop_threadsafe_nowait` (core.py 402-406):
`if not self._loop.is_closed(): call_soon_threadsafe(flag.set)` — a no-op
on a closed loop. -/
def LoopaTroopa_stop_threadsafe_nowait (s : LTTsState) :
    Except Exc Unit × LTTsState :=
  if s.loopClosed then
    (Except.ok (), s)
  else
    match s.shutdown_init with
    | none => (Except.error Exc.attributeError, s)
    | some _ => (Except.ok (), { s with shutdown_init := some true })

/-! ## loopa/core.py: the aborter/worker race (`LoopManager._execute_task`)

`_execute_task` (core.py 253-283) creates the term flag, schedules the
`aborter` (`term_flag.wait()`) and the `worker` (`task_run(...)`),
signals startup on the next scheduler turn, races the two with
`asyncio.wait(..., FIRST_COMPLETED)`, unpacks each of the two result
sets as a single element (`pending, = pending` / `finished, = finished`),
cancels the pending one, and returns `finished.result()`; the `finally`
discards the term flag.  The race outcome — which of the pair completed
when `asyncio.wait` returned — is the model's input. -/

/-- How the `asyncio.wait(FIRST_COMPLETED)` race resolved.  `bothFirst`
is the same-scheduler-turn case in which the term flag was set and the
worker routine completed before the wait was woken, so both futures are
in the finished set. -/
inductive RaceOutcome (ρ : Type) where
  | workerFirst (r : Except Exc ρ)
  | aborterFirst
  | bothFirst (r : Except Exc ρ)

/-- Identity of a pending future in the race. -/
inductive Fut where
  | worker
  | aborter
deriving DecidableEq, Repr

/-- A finished future in the race, carrying its result: the worker's
outcome, or the aborter (whose `Event.wait()` result is `True`). -/
inductive DoneFut (ρ : Type) where
  | worker (r : Except Exc ρ)
  | aborter

/-- The `(finished, pending)` pair returned by `asyncio.wait` for each
race outcome. -/
def raceSets {ρ : Type} : RaceOutcome ρ → List (DoneFut ρ) × List Fut
  | RaceOutcome.workerFirst r => ([DoneFut.worker r], [Fut.aborter])
  | RaceOutcome.aborterFirst => ([DoneFut.aborter], [Fut.worker])
  | RaceOutcome.bothFirst r => ([DoneFut.worker r, DoneFut.aborter], [])

/-- What `_execute_task` can return: the worker's value, or `True` from
the aborter's `Event.wait()`. -/
inductive RaceReturn (ρ : Type) where
  | workerResult (r : ρ)
  | aborterTrue

/-- `finished.result()`: the worker's value or its re-raised exception;
`True` for the aborter. -/
def doneResult {ρ : Type} : DoneFut ρ → Except Exc (RaceReturn ρ)
  | DoneFut.worker (Except.ok r) => Except.ok (RaceReturn.workerResult r)
  | DoneFut.worker (Except.error e) => Except.error e
  | DoneFut.aborter => Except.ok RaceReturn.aborterTrue

/-- Everything observable about one `_execute_task` call: its
result/exception, the term flag on exit, whether the startup signal was
scheduled, and which of the two competing futures got cancelled. -/
structure ExecTaskOut (ρ : Type) where
  res : Except Exc (RaceReturn ρ)
  term_flag : Option Bool
  startupScheduled : Bool
  workerCancelled : Bool
  aborterCancelled : Bool

/-- Embedding of `LoopManager._execute_task` (core.py 253-283).  The
single-element unpacking `pending, = pending` raises
`ValueError` when the pending set is not a singleton (which happens
exactly in the `bothFirst` outcome, before any cancellation); the
`finally` resets the term flag to `None` on every path. -/
def LoopManager_execute_task {ρ : Type} (outcome : RaceOutcome ρ) :
    ExecTaskOut ρ :=
  -- self._term_flag = asyncio.Event(); aborter/worker = ensure_future(...);
  -- self._loop.call_soon_threadsafe(self._startup_complete_flag.set)
  -- finished, pending = await asyncio.wait({aborter, worker},
  --                                        FIRST_COMPLETED)
  let sets := raceSets outcome
  match sets.2, sets.1 with
  | [p], [f] =>
    -- pending, = pending ; finished, = finished ; pending.cancel()
    -- return finished.result()    / finally: self._term_flag = None
    { res := doneResult f
      term_flag := none
      startupScheduled := true
      workerCancelled := p == Fut.worker
      aborterCancelled := p == Fut.aborter }
  | _, _ =>
    -- the sets are not singletons: the tuple unpacking itself raises
    { res := Except.error (Exc.valueError "not enough values to unpack")
      term_flag := none
      startupScheduled := true
      workerCancelled := false
      aborterCancelled := false }

/-! ## loopa/core.py: the iterative looper
(`LoopaTroopa._execute_looper`, `_step_looper`, `_kill_tasks`)

`_execute_looper` (core.py 419-435) awaits `loop_init`, then runs
`while not self._shutdown_init_flag.is_set(): await self._step_looper()`
inside `try/except CancelledError/finally`; the finally block awaits
`asyncio.shield(self.loop_stop())` and then `self._kill_tasks()`.

Two parts of this code are not (fully) present under src/:

* `self._raise_if_exc(...)` is called at core.py 455 and 460 but defined
  nowhere under src/.  Modelled from the spec: "if `run` is among the
  finished set, propagate its failure if any" — re-raise the finished
  future's exception when it has one, otherwise do nothing.
* `except CancelledError` at core.py 429 names `CancelledError` without
  any binding for it (the module never imports it and it is not a
  builtin), so whenever an exception propagates out of the while loop,
  evaluating the handler raises `NameError` in its place.  This is kept
  in the model as the source behaviour.

`loop_run`'s behaviour on its k-th invocation (1-based) is a parameter:
whether it completes, raises, or is still pending when the interrupt
fires. -/

/-- Outcome of the `asyncio.wait` race inside `_step_looper` for one
iteration: the task finished alone (optionally having called `stop()`
internally, optionally with an exception), the interrupt finished alone
(the shutdown-init flag was set externally while `loop_run` was still
pending), or both finished in the same scheduler turn. -/
inductive StepOutcome where
  | taskOnly (callsStop : Bool) (taskExc : Option Exc)
  | interruptOnly
  | bothDone (taskExc : Option Exc)
deriving DecidableEq, Repr

/-- Trace events of one looper activation. -/
inductive LoopEvent where
  | loopRunStart (k : Nat)
  | loopStopCall (shielded : Bool)
  | killTasksCall
deriving DecidableEq, Repr

/-- What one `_step_looper` call produced. -/
structure StepRes where
  res : Except Exc Unit
  flagAfter : Bool
  startupAfter : Bool
  taskCancelled : Bool
  interruptCancelled : Bool
deriving Repr

/-- Embedding of `LoopaTroopa._step_looper` (core.py 437-462) for one
iteration whose race resolves as `out`, entered with the shutdown-init
flag value `flag` (necessarily false, since the while loop checked it).
`Modelled from the spec:` the undefined `self._raise_if_exc(fut)` is
taken to re-raise the finished future's exception if any, per spec 4.2
("propagate its failure if any").  The startup-complete flag is
scheduled to be set on the loop's next turn whenever it is unset, so it
is true after the step either way. -/
def stepLooper (out : StepOutcome) (flag : Bool) : StepRes :=
  -- task = ensure_future(self.loop_run())
  -- interrupt = ensure_future(self._shutdown_init_flag.wait())
  -- if not startup_complete.is_set(): self._loop.call_soon(set)
  -- finished, pending = await asyncio.wait([task, interrupt],
  --                                        FIRST_COMPLETED)
  match out with
  | StepOutcome.taskOnly callsStop taskExc =>
    -- task in finished: _raise_if_exc(task); interrupt still pending
    let flag' := flag || callsStop
    match taskExc with
    | some e =>
      -- _raise_if_exc re-raises; the interrupt branch is never reached,
      -- so the pending interrupt is not cancelled here
      { res := Except.error e, flagAfter := flag', startupAfter := true
        taskCancelled := false, interruptCancelled := false }
    | none =>
      -- task ok; interrupt not in finished: interrupt.cancel()
      { res := Except.ok (), flagAfter := flag', startupAfter := true
        taskCancelled := false, interruptCancelled := true }
  | StepOutcome.interruptOnly =>
    -- interrupt finished means the flag was set during this iteration;
    -- task not in finished: task.cancel(); _raise_if_exc(interrupt) is
    -- silent (`Event.wait()` returns True)
    { res := Except.ok (), flagAfter := true, startupAfter := true
      taskCancelled := true, interruptCancelled := false }
  | StepOutcome.bothDone taskExc =>
    -- both in finished: the double check of the source runs both
    -- branches; nothing is cancelled
    match taskExc with
    | some e =>
      { res := Except.error e, flagAfter := true, startupAfter := true
        taskCancelled := false, interruptCancelled := false }
    | none =>
      { res := Except.ok (), flagAfter := true, startupAfter := true
        taskCancelled := false, interruptCancelled := false }

/-- Flags of the looper visible to the while loop. -/
structure LooperSt where
  shutdown_init : Bool
  startup_complete : Bool
deriving DecidableEq, Repr

/-- The `while not self._shutdown_init_flag.is_set(): await
self._step_looper()` loop of `_execute_looper`, with `behav k` giving the
race outcome of iteration `k` (1-based) and `fuel` bounding the number of
loop-condition checks.  Returns `none` when fuel ran out (the loop is
still running), otherwise the result propagating out of the while loop,
together with the final flags and the trace of `loop_run` starts. -/
def runWhile (behav : Nat → StepOutcome) (st : LooperSt) (k fuel : Nat) :
    Option (Except Exc Unit) × LooperSt × List LoopEvent :=
  match fuel with
  | 0 => (none, st, [])
  | fuel' + 1 =>
    if st.shutdown_init then
      (some (Except.ok ()), st, [])
    else
      let r := stepLooper (behav k) st.shutdown_init
      let st' : LooperSt :=
        { shutdown_init := r.flagAfter, startup_complete := r.startupAfter }
      match r.res with
      | Except.error e => (some (Except.error e), st', [LoopEvent.loopRunStart k])
      | Except.ok _ =>
        let tail := runWhile behav st' (k + 1) fuel'
        (tail.1, tail.2.1, LoopEvent.loopRunStart k :: tail.2.2)

/-- Embedding of `LoopaTroopa._execute_looper` (core.py 419-435), after
`loop_init` has completed.  If the while loop ends (normally or with an
exception), the `except CancelledError` clause is consulted — but
`CancelledError` is an unbound name in `core.py`, so any propagating
exception is replaced by a `NameError` — and then the `finally` block
awaits `asyncio.shield(self.loop_stop())` followed by
`self._kill_tasks()`. -/
def executeLooper (behav : Nat → StepOutcome) (fuel : Nat) :
    Option (Except Exc Unit) × LooperSt × List LoopEvent :=
  let w := runWhile behav
    { shutdown_init := false, startup_complete := false } 1 fuel
  match w.1 with
  | none => (none, w.2.1, w.2.2)
  | some r =>
    let r' : Except Exc Unit :=
      match r with
      | Except.ok _ => Except.ok ()
      | Except.error _ => Except.error (Exc.nameError "CancelledError")
    (some r', w.2.1,
      w.2.2 ++ [LoopEvent.loopStopCall true, LoopEvent.killTasksCall])

/-- A looper whose `loop_run` completes every iteration and calls
`self.stop()` (setting the shutdown-init flag) during its N-th run. -/
def selfStopAt (N : Nat) : Nat → StepOutcome :=
  fun k => StepOutcome.taskOnly (k == N) none

/-- A looper stopped cross-thread during its N-th iteration: iteration N
blocks until `stop_threadsafe_nowait` sets the flag, so the interrupt
future wins the race and the pending task is cancelled. -/
def externalStopAt (N : Nat) : Nat → StepOutcome :=
  fun k => if k == N then StepOutcome.interruptOnly
    else StepOutcome.taskOnly false none

/-- A looper whose `loop_run` raises `e` on its first iteration. -/
def raisesAtOnce (e : Exc) : Nat → StepOutcome :=
  fun _ => StepOutcome.taskOnly false (some e)

/-- Number of `loop_run` invocations recorded in a trace. -/
def countRuns (tr : List LoopEvent) : Nat :=
  tr.countP fun e => match e with
    | LoopEvent.loopRunStart _ => true
    | _ => false

/-- Number of `loop_stop` invocations recorded in a trace. -/
def countLoopStops (tr : List LoopEvent) : Nat :=
  tr.countP fun e => match e with
    | LoopEvent.loopStopCall _ => true
    | _ => false

/-- The `for task in all_tasks: if task is not self._looper_future:
task.cancel()` loop of `_kill_tasks`, returning the list of cancelled
tasks (task identities are `Nat`). -/
def killTasksCancel (tasks : List Nat) (looperFuture : Nat) : List Nat :=
  match tasks with
  | [] => []
  | t :: rest =>
    if t = looperFuture then killTasksCancel rest looperFuture
    else t :: killTasksCancel rest looperFuture

/-- Embedding of `LoopaTroopa._kill_tasks` (core.py 464-476): cancels
every outstanding task other than the looper's own root future, and —
when any tasks exist at all — awaits them bounded by `_death_timeout`
(the grace period; the second component is the timeout passed to
`asyncio.wait`, absent when no wait happens). -/
def kill_tasks (allTasks : List Nat) (looperFuture : Nat)
    (deathTimeout : Nat) : List Nat × Option Nat :=
  (killTasksCancel allTasks looperFuture,
    if 0 < allTasks.length then some deathTimeout else none)

/-! ## Claim theorems for utils and Aengel -/

/-- C10: `default_to` returns `default` exactly when `check` is `None`
(no comparator supplied), or exactly when `check` equals the supplied
comparator; in every other case it returns `check` unchanged. -/
theorem C10_default_to (α : Type) [DecidableEq α] (check default : Option α)
    (c : α) :
    (default_to check default none =
      if check = none then default else check) ∧
    (default_to check default (some c) =
      if check = some c then default else check) := by
  refine ⟨?_, ?_⟩
  · cases check <;> simp [default_to]
  · by_cases h : check = some c <;> simp [default_to, h]

/-- C9: removing a guardling removes exactly the first matching
registration: on a registry `l1 ++ g :: l2` whose prefix `l1` does not
contain `g`, removal returns `l1 ++ l2`; removing from a registry that
never contained `g` fails with a `ValueError`; and registering the same
guardling twice then removing it once leaves one registration present. -/
theorem C9_remove_first (l1 l2 gs : List Nat) (g : Nat)
    (h1 : g ∉ l1) (h2 : g ∉ gs) :
    remove_guardling (l1 ++ g :: l2) g = Except.ok (l1 ++ l2) ∧
    remove_guardling gs g =
      Except.error (Exc.valueError "deque.remove(x): x not in deque") ∧
    remove_guardling (append_guardling (append_guardling [] g) g) g =
      Except.ok [g] := by
  refine ⟨?_, ?_, ?_⟩
  · induction l1 with
    | nil => simp [remove_guardling]
    | cons x xs ih =>
      have hx : x ≠ g := by
        intro hxg
        exact h1 (by simp [hxg])
      have hxs : g ∉ xs := fun hmem => h1 (List.mem_cons_of_mem x hmem)
      simp only [List.cons_append, remove_guardling, if_neg hx,
        List.append_eq, ih hxs]
  · induction gs with
    | nil => simp [remove_guardling]
    | cons x xs ih =>
      have hx : x ≠ g := by
        intro hxg
        exact h2 (by simp [hxg])
      have hxs : g ∉ xs := fun hmem => h2 (List.mem_cons_of_mem x hmem)
      simp only [remove_guardling, if_neg hx, ih hxs]
  · simp [append_guardling, remove_guardling]

/-- C1: for every activation of `LoopManager._run` or `LoopaTroopa.start`,
whatever the outcome of the scheduled task (normal completion, stop
request, or an unhandled exception, all instances of the arbitrary
`o`/`p`), the shutdown-complete flag is set exactly once on the way out
(its set-counter grows by exactly one and it ends true), and the outcome
itself is passed through unchanged. -/
theorem C1_shutdown_once (s : LMRunState) (t : LTRunState)
    (o p : Except Exc Unit) :
    ((LoopManager_run s o).2.shutdown_complete = true ∧
      (LoopManager_run s o).2.shutdownSetCount = s.shutdownSetCount + 1 ∧
      (LoopManager_run s o).1 = o) ∧
    ((LoopaTroopa_start t p).2.shutdown_complete = true ∧
      (LoopaTroopa_start t p).2.shutdownSetCount = t.shutdownSetCount + 1 ∧
      (LoopaTroopa_start t p).1 = p) := by
  refine ⟨⟨?_, ?_, rfl⟩, ⟨rfl, rfl, rfl⟩⟩ <;>
    by_cases h : s.reusable_loop <;>
      simp [LoopManager_run, LoopManager_finalize, h]

/-- C7 counterexample: a `LoopaTroopa` constructed with
`reusable_loop = true` and an open scheduler still has its scheduler
closed at the end of the activation — the claim requires it to remain
open when `reusable` is true. -/
theorem C7_counterexample :
    (LoopaTroopa_start
      { startup_complete := false, shutdown_complete := false,
        shutdownSetCount := 0, shutdown_init := none,
        loopClosed := false, reusable_loop := true }
      (Except.ok ())).2.loopClosed = true := rfl

/-- C7 amended: for `LoopManager._run` the scheduler is closed at the end
of the activation exactly when `reusable_loop` is false (when true it is
left as it was, and only an explicit `finalize` closes it); for
`LoopaTroopa.start` the scheduler is closed unconditionally at the end of
every activation, even when `reusable_loop` is true. -/
theorem C7_amended (s : LMRunState) (t : LTRunState)
    (o p : Except Exc Unit) :
    ((LoopManager_run s o).2.loopClosed =
      if s.reusable_loop then s.loopClosed else true) ∧
    (LoopManager_finalize s).loopClosed = true ∧
    (LoopaTroopa_start t p).2.loopClosed = true := by
  refine ⟨?_, rfl, rfl⟩
  by_cases h : s.reusable_loop <;>
    simp [LoopManager_run, LoopManager_finalize, h]

/-- C2 counterexample: when the term flag is set and the worker routine
completes in the same scheduler turn (`bothFirst`), the pending set is
empty, so `pending, = pending` raises a `ValueError`: neither awaitable
is cancelled (not "exactly one") and the call does not return the
finished awaitable's result `0` — refuting the claim at this input.  The
term flag is still reset by the `finally`. -/
theorem C2_counterexample :
    LoopManager_execute_task (RaceOutcome.bothFirst (Except.ok (0 : Nat))) =
      { res := Except.error (Exc.valueError "not enough values to unpack")
        term_flag := none
        startupScheduled := true
        workerCancelled := false
        aborterCancelled := false } := rfl

/-- C2 amended: when exactly one of the two competing awaitables finishes
first, exactly the other one is cancelled (never both) and the call
returns the finished awaitable's result or propagates its exception; when
both complete in the same scheduler turn the single-element unpacking
fails with a `ValueError` and neither is cancelled; on every path the
term flag is reset to absent. -/
theorem C2_amended (ρ : Type) (r : Except Exc ρ) :
    (LoopManager_execute_task (RaceOutcome.workerFirst r)).workerCancelled
        = false ∧
    (LoopManager_execute_task (RaceOutcome.workerFirst r)).aborterCancelled
        = true ∧
    (LoopManager_execute_task (RaceOutcome.workerFirst r)).res
        = doneResult (DoneFut.worker r) ∧
    (LoopManager_execute_task (RaceOutcome.aborterFirst : RaceOutcome ρ)
        ).workerCancelled = true ∧
    (LoopManager_execute_task (RaceOutcome.aborterFirst : RaceOutcome ρ)
        ).aborterCancelled = false ∧
    (LoopManager_execute_task (RaceOutcome.aborterFirst : RaceOutcome ρ)
        ).res = Except.ok RaceReturn.aborterTrue ∧
    ((LoopManager_execute_task (RaceOutcome.bothFirst r)).workerCancelled
        = false ∧
      (LoopManager_execute_task (RaceOutcome.bothFirst r)).aborterCancelled
        = false) ∧
    (∀ oc : RaceOutcome ρ, (LoopManager_execute_task oc).term_flag = none) := by
  refine ⟨rfl, rfl, rfl, rfl, rfl, rfl, ⟨rfl, rfl⟩, ?_⟩
  intro oc
  cases oc <;> rfl

/-- C4 counterexample: on a `LoopaTroopa` whose startup-complete flag is
still unset (but whose shutdown-init flag object exists), `stop()`
returns normally and sets the flag — it neither raises an ordering error
nor leaves the term flag unset, refuting the claim for IterativeLoop. -/
theorem C4_counterexample :
    LoopaTroopa_stop { startup_complete := false, shutdown_init := some false }
      = (Except.ok (),
          { startup_complete := false, shutdown_init := some true }) := rfl

/-- C4 amended: `LoopManager.stop` called before startup-complete raises
a runtime ordering error and leaves the term flag untouched, and called
after startup-complete (with the term flag present) sets the term flag
and returns; `LoopaTroopa.stop`, however, performs no ordering check: it
sets the shutdown-init flag unconditionally whenever the flag object
exists (and fails with an attribute error on the `None` placeholder),
even before startup-complete. -/
theorem C4_amended (tf : Option Bool) (b c sb : Bool) :
    (LoopManager_stop { startup_complete := false, term_flag := tf }
      = (Except.error
            (Exc.runtimeError "Cannot stop before startup is complete."),
          { startup_complete := false, term_flag := tf })) ∧
    (LoopManager_stop { startup_complete := true, term_flag := some b }
      = (Except.ok (), { startup_complete := true, term_flag := some true })) ∧
    (LoopaTroopa_stop { startup_complete := sb, shutdown_init := none }
      = (Except.error Exc.attributeError,
          { startup_complete := sb, shutdown_init := none })) ∧
    (LoopaTroopa_stop { startup_complete := sb, shutdown_init := some c }
      = (Except.ok (),
          { startup_complete := sb, shutdown_init := some true })) :=
  ⟨rfl, rfl, rfl, rfl⟩

/-- C8 counterexample: `LoopManager.stop_threadsafe_nowait` called with
the scheduler already closed (after startup-complete, term flag present)
is not a no-op: `call_soon_threadsafe` raises a runtime error on a
closed loop — refuting the claim for LoopHost. -/
theorem C8_counterexample :
    LoopManager_stop_threadsafe_nowait
        { startup_complete := true, loopClosed := true, term_flag := some false }
      = (Except.error (Exc.runtimeError "Event loop is closed"),
          { startup_complete := true, loopClosed := true,
            term_flag := some false }) := rfl

/-- C8 amended: `LoopaTroopa.stop_threadsafe_nowait` is a no-op on a
closed scheduler (returns normally, raises nothing, changes no state);
`LoopManager.stop_threadsafe_nowait` on a closed scheduler instead raises
a runtime error (the ordering error before startup-complete, or the
closed-event-loop error from `call_soon_threadsafe` after it), leaving
the state unchanged. -/
theorem C8_amended (si tf : Option Bool) (b : Bool) :
    (LoopaTroopa_stop_threadsafe_nowait
        { loopClosed := true, shutdown_init := si }
      = (Except.ok (), { loopClosed := true, shutdown_init := si })) ∧
    (LoopManager_stop_threadsafe_nowait
        { startup_complete := true, loopClosed := true, term_flag := some b }
      = (Except.error (Exc.runtimeError "Event loop is closed"),
          { startup_complete := true, loopClosed := true,
            term_flag := some b })) ∧
    (LoopManager_stop_threadsafe_nowait
        { startup_complete := false, loopClosed := true, term_flag := tf }
      = (Except.error
            (Exc.runtimeError "Cannot stop before startup is complete."),
          { startup_complete := false, loopClosed := true,
            term_flag := tf })) :=
  ⟨rfl, rfl, rfl⟩

/-- Helper: a while loop whose first `N - k` iterations complete without
setting the shutdown-init flag and whose `N`-th iteration completes with
the flag set afterwards exits normally having started `loop_run` once per
iteration from `k` to `N`. -/
theorem runWhile_stops_at (behav : Nat → StepOutcome) (N : Nat)
    (tc ic : Bool)
    (hb : ∀ j, j < N → behav j = StepOutcome.taskOnly false none)
    (hN : stepLooper (behav N) false =
      { res := Except.ok (), flagAfter := true, startupAfter := true
        taskCancelled := tc, interruptCancelled := ic }) :
    ∀ fuel k b, k ≤ N → N + 2 ≤ k + fuel →
      (runWhile behav { shutdown_init := false, startup_complete := b }
          k fuel).1 = some (Except.ok ()) ∧
      countRuns (runWhile behav
          { shutdown_init := false, startup_complete := b } k fuel).2.2
        = N + 1 - k := by
  intro fuel
  induction fuel with
  | zero => intro k b hk hf; omega
  | succ f ih =>
    intro k b hk hf
    by_cases hkN : k = N
    · subst hkN
      obtain ⟨g, rfl⟩ : ∃ g, f = g + 1 := ⟨f - 1, by omega⟩
      simp [runWhile, hN, countRuns]
    · have hkN' : k < N := lt_of_le_of_ne hk hkN
      have hstep : stepLooper (behav k) false =
          { res := Except.ok (), flagAfter := false, startupAfter := true
            taskCancelled := false, interruptCancelled := true } := by
        rw [hb k hkN']
        rfl
      have htail := ih (k + 1) true (by omega) (by omega)
      refine ⟨?_, ?_⟩
      · simpa [runWhile, hstep] using htail.1
      · have : countRuns (runWhile behav
            { shutdown_init := false, startup_complete := b } k (f + 1)).2.2
            = countRuns (runWhile behav
              { shutdown_init := false, startup_complete := true }
              (k + 1) f).2.2 + 1 := by
          simp [runWhile, hstep, countRuns]
        rw [this, htail.2]
        omega

/-- Helper: every event the while loop itself records is a `loop_run`
start; in particular it never invokes `loop_stop`. -/
theorem runWhile_events (behav : Nat → StepOutcome) :
    ∀ fuel st k e, e ∈ (runWhile behav st k fuel).2.2 →
      ∃ j, e = LoopEvent.loopRunStart j := by
  intro fuel
  induction fuel with
  | zero => intro st k e he; simp [runWhile] at he
  | succ f ih =>
    intro st k e he
    obtain ⟨si, sc⟩ := st
    cases si with
    | true => simp [runWhile] at he
    | false =>
      cases hres : (stepLooper (behav k) false).res with
      | error e' =>
        simp [runWhile, hres] at he
        exact ⟨k, he⟩
      | ok u =>
        simp only [runWhile, hres] at he
        simp at he
        rcases he with he | he
        · exact ⟨k, he⟩
        · exact ih _ (k + 1) e he

/-- Helper: the while loop itself never invokes `loop_stop`; only the
finally block of `_execute_looper` does. -/
theorem runWhile_no_stops (behav : Nat → StepOutcome)
    (fuel : Nat) (st : LooperSt) (k : Nat) :
    countLoopStops (runWhile behav st k fuel).2.2 = 0 := by
  rw [countLoopStops, List.countP_eq_zero]
  intro a ha
  obtain ⟨j, rfl⟩ := runWhile_events behav fuel st k a ha
  simp

/-- Helper: `countRuns` distributes over trace concatenation. -/
theorem countRuns_append (a b : List LoopEvent) :
    countRuns (a ++ b) = countRuns a + countRuns b := by
  simp [countRuns, List.countP_append]

/-- Helper: `countLoopStops` distributes over trace concatenation. -/
theorem countLoopStops_append (a b : List LoopEvent) :
    countLoopStops (a ++ b) = countLoopStops a + countLoopStops b := by
  simp [countLoopStops, List.countP_append]

/-- Helper: `_kill_tasks` cancels exactly the outstanding tasks that are
not the looper's own root future. -/
theorem killTasksCancel_eq_filter (ts : List Nat) (root : Nat) :
    killTasksCancel ts root = ts.filter fun t => t ≠ root := by
  induction ts with
  | nil => rfl
  | cons t rest ih =>
    by_cases h : t = root <;> simp [killTasksCancel, h, ih]

/-- C3: an IterativeLoop whose run-step requests stop on its N-th
execution — whether by the internal `stop()` call (`selfStopAt`) or by a
cross-thread `stop_threadsafe_nowait` landing during the N-th iteration
(`externalStopAt`) — exits normally having started `loop_run` exactly N
times: no further iteration begins once the shutdown-init flag is set. -/
theorem C3_run_count (N fuel : Nat) (h1 : 1 ≤ N) (h2 : N + 1 ≤ fuel) :
    (executeLooper (selfStopAt N) fuel).1 = some (Except.ok ()) ∧
    countRuns (executeLooper (selfStopAt N) fuel).2.2 = N ∧
    (executeLooper (externalStopAt N) fuel).1 = some (Except.ok ()) ∧
    countRuns (executeLooper (externalStopAt N) fuel).2.2 = N := by
  have hb1 : ∀ j, j < N → selfStopAt N j = StepOutcome.taskOnly false none := by
    intro j hj
    simp [selfStopAt, Nat.ne_of_lt hj]
  have hN1 : stepLooper (selfStopAt N N) false =
      { res := Except.ok (), flagAfter := true, startupAfter := true
        taskCancelled := false, interruptCancelled := true } := by
    simp [selfStopAt, stepLooper]
  have hb2 : ∀ j, j < N →
      externalStopAt N j = StepOutcome.taskOnly false none := by
    intro j hj
    simp [externalStopAt, Nat.ne_of_lt hj]
  have hN2 : stepLooper (externalStopAt N N) false =
      { res := Except.ok (), flagAfter := true, startupAfter := true
        taskCancelled := true, interruptCancelled := false } := by
    simp [externalStopAt, stepLooper]
  have hself := runWhile_stops_at (selfStopAt N) N false true hb1 hN1
    fuel 1 false (by omega) (by omega)
  have hext := runWhile_stops_at (externalStopAt N) N true false hb2 hN2
    fuel 1 false (by omega) (by omega)
  have hcount : N + 1 - 1 = N := by omega
  rw [hcount] at hself hext
  refine ⟨?_, ?_, ?_, ?_⟩
  · simp [executeLooper, hself.1]
  · simp only [executeLooper, hself.1]
    rw [countRuns_append, hself.2]
    rfl
  · simp [executeLooper, hext.1]
  · simp only [executeLooper, hext.1]
    rw [countRuns_append, hext.2]
    rfl

/-- C3 witness: the run-count theorem applied at N = 3 with fuel 5: both
the self-stopping and the cross-thread-stopped looper start `loop_run`
exactly 3 times. -/
theorem C3_run_count_witness :
    (1 : Nat) ≤ 3 ∧ (3 : Nat) + 1 ≤ 5 ∧
    countRuns (executeLooper (selfStopAt 3) 5).2.2 = 3 ∧
    countRuns (executeLooper (externalStopAt 3) 5).2.2 = 3 :=
  ⟨by decide, by decide,
    (C3_run_count 3 5 (by decide) (by decide)).2.1,
    (C3_run_count 3 5 (by decide) (by decide)).2.2.2⟩

/-- C5: whenever a looper activation's while loop ends — self-stop,
cross-thread stop, or a run-step failure (including a cancellation) —
the trace contains exactly one `loop_stop` invocation, it is made under
`asyncio.shield`, and it is immediately followed by `_kill_tasks`;
`_kill_tasks` cancels exactly the outstanding tasks other than the
looper's own root future and, when any tasks exist, awaits them bounded
by the `deathTimeout` grace period. -/
theorem C5_cleanup_once (behav : Nat → StepOutcome) (fuel : Nat)
    (ts : List Nat) (root dt : Nat)
    (h : (executeLooper behav fuel).1.isSome = true) :
    countLoopStops (executeLooper behav fuel).2.2 = 1 ∧
    (∃ tr0, (executeLooper behav fuel).2.2 =
        tr0 ++ [LoopEvent.loopStopCall true, LoopEvent.killTasksCall] ∧
      countLoopStops tr0 = 0) ∧
    killTasksCancel ts root = (ts.filter fun t => t ≠ root) ∧
    root ∉ killTasksCancel ts root ∧
    (kill_tasks ts root dt).2 = (if 0 < ts.length then some dt else none) := by
  have hns := runWhile_no_stops behav fuel
    { shutdown_init := false, startup_complete := false } 1
  cases hw : (runWhile behav
      { shutdown_init := false, startup_complete := false } 1 fuel).1 with
  | none =>
    exfalso
    simp [executeLooper, hw] at h
  | some r =>
    refine ⟨?_, ?_, killTasksCancel_eq_filter ts root, ?_, rfl⟩
    · simp only [executeLooper, hw]
      rw [countLoopStops_append, hns]
      rfl
    · refine ⟨(runWhile behav
        { shutdown_init := false, startup_complete := false } 1 fuel).2.2,
        ?_, hns⟩
      simp [executeLooper, hw]
    · rw [killTasksCancel_eq_filter]
      simp

/-- C5 witness: the cleanup theorem applied to the concrete self-stopping
looper (N = 1, fuel 3) and the task set `[5, 7]` with root task 5. -/
theorem C5_cleanup_once_witness :
    (executeLooper (selfStopAt 1) 3).1.isSome = true ∧
    countLoopStops (executeLooper (selfStopAt 1) 3).2.2 = 1 ∧
    5 ∉ killTasksCancel [5, 7] 5 :=
  ⟨by decide,
    (C5_cleanup_once (selfStopAt 1) 3 [5, 7] 5 1 (by decide)).1,
    (C5_cleanup_once (selfStopAt 1) 3 [5, 7] 5 1 (by decide)).2.2.2.1⟩

/-- C6: evaluating the activation at the failing inputs.  A run-step that
raises a cancellation on its first iteration does not end as a normal
stop: because `except CancelledError` names an identifier that is
unbound in `core.py`, matching the propagating exception raises
`NameError`, which becomes the activation's result; a run-step raising a
non-cancellation exception (`userExc 7`, e.g. a `ValueError`) is likewise
replaced by the same `NameError` instead of propagating unchanged.  The
shielded `loop_stop` in the finally block still runs once. -/
theorem C6_bug_theorem :
    (executeLooper (raisesAtOnce Exc.cancelledError) 2).1 =
      some (Except.error (Exc.nameError "CancelledError")) ∧
    (executeLooper (raisesAtOnce (Exc.userExc 7)) 2).1 =
      some (Except.error (Exc.nameError "CancelledError")) ∧
    countRuns (executeLooper (raisesAtOnce Exc.cancelledError) 2).2.2 = 1 ∧
    countLoopStops (executeLooper (raisesAtOnce Exc.cancelledError) 2).2.2
      = 1 :=
  ⟨rfl, rfl, rfl, rfl⟩

/-- C9 witness: the removal theorem applied to the concrete registry
`[1, 2, 9, 3]` with guardling `9`. -/
theorem C9_remove_first_witness :
    9 ∉ [1, 2] ∧ 9 ∉ [4, 5] ∧
    remove_guardling ([1, 2] ++ 9 :: [3]) 9 = Except.ok ([1, 2] ++ [3]) ∧
    remove_guardling [4, 5] 9 =
      Except.error (Exc.valueError "deque.remove(x): x not in deque") :=
  ⟨by decide, by decide,
    (C9_remove_first [1, 2] [3] [4, 5] 9 (by decide) (by decide)).1,
    (C9_remove_first [1, 2] [3] [4, 5] 9 (by decide) (by decide)).2.1⟩
